import Mathlib

/-
Verification of the STUDY_BUDDY analytics, insights, report-builder and
plan-adapter logic.  The Python functions in `utils/db.py`, `utils/ai.py`
and `utils/integrations.py` are shallowly embedded as pure Lean functions:
database reads become explicit list arguments, Firestore timestamps become
integer day ordinals, Python floats become rationals, and fallible paths
become explicit `Option` values.
-/

namespace StudyBuddy

/-- The streak walk of `get_learning_streak` (utils/db.py lines 166-175):
given the deduplicated quiz dates sorted in descending order and the current
`expected_date`, count a date when it equals the expected date or the day
before it, moving the expectation to the day before the counted date;
stop at the first date that does neither. -/
def streakWalk : List Int → Int → Nat
  | [], _ => 0
  | d :: ds, expected =>
    if d = expected ∨ d = expected - 1 then streakWalk ds (d - 1) + 1 else 0

/-- First-occurrence deduplication of the extracted quiz dates
(utils/db.py lines 154-160: `if quiz_date not in quiz_dates: append`). -/
def dedupDates (dates : List Int) : List Int :=
  dates.foldl (fun acc d => if d ∈ acc then acc else acc ++ [d]) []

/-- Insert a date into a descending-sorted list, keeping it sorted. -/
def insertDesc (d : Int) : List Int → List Int
  | [] => [d]
  | x :: xs => if x ≤ d then d :: x :: xs else x :: insertDesc d xs

/-- Model of `quiz_dates.sort(reverse=True)` (utils/db.py line 166).  On the
deduplicated (hence pairwise-distinct) dates any correct sort produces the
same strictly descending list, so insertion sort is an exact model. -/
def sortDesc (l : List Int) : List Int := l.foldr insertDesc []

/-- Model of `get_learning_streak` (utils/db.py lines 145-177) after the database
fetch: `today` is `datetime.now().date()` and `dates` are the completion
dates of the (at most 30) most recent quiz records in retrieval order. -/
def get_learning_streak (today : Int) (dates : List Int) : Nat :=
  let uniq := dedupDates dates
  if uniq.isEmpty then 0 else streakWalk (sortDesc uniq) today

/-- A stored quiz-score document (`quiz_scores` collection).  `percentage`
is stored at creation time; `completed_at` is the completion date as an
integer day ordinal. -/
structure QuizRecord where
  topic : String
  score : Nat
  total_questions : Nat
  percentage : Rat
  completed_at : Int
deriving DecidableEq

/-- Model of `save_quiz_score` (utils/db.py lines 51-67): the document written to
the store, with `percentage = score / total_questions * 100`. -/
def save_quiz_score (topic : String) (score : Nat) (total_questions : Nat)
    (completed_at : Int) : QuizRecord :=
  { topic := topic, score := score, total_questions := total_questions,
    percentage := (score : Rat) / (total_questions : Rat) * 100,
    completed_at := completed_at }

/-- The analytics dictionary assembled by `get_user_analytics`
(utils/db.py lines 88-96); `current_streak` is initialised to 0 there and
never recomputed inside that function. -/
structure AnalyticsData where
  total_quizzes : Nat
  average_score : Rat
  topics_studied : List String
  best_topic : Option String
  worst_topic : Option String
  current_streak : Nat
deriving DecidableEq

/-- The `defaultdict(list)` grouping step (utils/db.py lines 110-112): append
the percentage to the list of the topic, creating the entry at the end of the
insertion order when the topic is new. -/
def addToGroup (t : String) (p : Rat) : List (String × List Rat) → List (String × List Rat)
  | [] => [(t, [p])]
  | (k, ps) :: rest =>
    if k = t then (k, ps ++ [p]) :: rest else (k, ps) :: addToGroup t p rest

/-- Group the record percentages by topic in insertion order, as the
`topic_scores` defaultdict does. -/
def groupPercentages (records : List QuizRecord) : List (String × List Rat) :=
  records.foldl (fun acc r => addToGroup r.topic r.percentage acc) []

/-- Model of `max(topic_averages, key=topic_averages.get)` (utils/db.py line 115):
iterate in insertion order keeping the first key whose value is maximal
(a later key replaces the current one only when strictly greater). -/
def pyMaxBy (l : List (String × Rat)) : Option String :=
  match l with
  | [] => none
  | e :: rest =>
    some (rest.foldl (fun best kv => if best.2 < kv.2 then kv else best) e).1

/-- Model of `min(topic_averages, key=topic_averages.get)` (utils/db.py line 116):
the first key whose value is minimal. -/
def pyMinBy (l : List (String × Rat)) : Option String :=
  match l with
  | [] => none
  | e :: rest =>
    some (rest.foldl (fun best kv => if kv.2 < best.2 then kv else best) e).1

/-- First-occurrence deduplication of topic names; models the `set()` of
topics built at utils/db.py line 102 (set-iteration order is immaterial to
every property stated below). -/
def dedupTopics (records : List QuizRecord) : List String :=
  records.foldl (fun acc r => if r.topic ∈ acc then acc else acc ++ [r.topic]) []

/-- Model of `get_user_analytics` (utils/db.py lines 79-123) after the database
fetch: zeroed defaults for an empty history, otherwise count, mean
percentage, per-topic averages and the arg-max/arg-min topics. -/
def get_user_analytics (records : List QuizRecord) : AnalyticsData :=
  let topics := dedupTopics records
  if records.isEmpty then
    { total_quizzes := 0, average_score := 0, topics_studied := topics,
      best_topic := none, worst_topic := none, current_streak := 0 }
  else
    let topic_averages :=
      (groupPercentages records).map (fun e => (e.1, e.2.sum / (e.2.length : Rat)))
    { total_quizzes := records.length,
      average_score := (records.map (·.percentage)).sum / (records.length : Rat),
      topics_studied := topics,
      best_topic := pyMaxBy topic_averages,
      worst_topic := pyMinBy topic_averages,
      current_streak := 0 }

/-- Python `max(scores)` over a non-empty list (the empty case is guarded
by `if scores else 0` in the source, so the 0 default is never the result
of an unguarded `max([])`). -/
def pyMax : List Rat → Rat
  | [] => 0
  | x :: xs => xs.foldl max x

/-- Python `min(scores)` over a non-empty list, with the same guard. -/
def pyMin : List Rat → Rat
  | [] => 0
  | x :: xs => xs.foldl min x

/-- The `topic_data` update of `get_topic_performance` (utils/db.py lines
196-200): append the percentage to the `scores` list of the topic and increment
its `total_quizzes` counter, creating the entry when the topic is new. -/
def updateGroup (t : String) (p : Rat) :
    List (String × (List Rat × Nat)) → List (String × (List Rat × Nat))
  | [] => [(t, ([p], 1))]
  | (k, e) :: rest =>
    if k = t then (k, (e.1 ++ [p], e.2 + 1)) :: rest
    else (k, e) :: updateGroup t p rest

/-- Fold building the per-topic `scores`/`total_quizzes` data in record
order. -/
def groupByTopic (records : List QuizRecord) : List (String × (List Rat × Nat)) :=
  records.foldl (fun acc r => updateGroup r.topic r.percentage acc) []

/-- The per-topic structure returned by `get_topic_performance`
(utils/db.py lines 202-209). -/
structure TopicStats where
  scores : List Rat
  total_quizzes : Nat
  average_score : Rat
  best_score : Rat
  worst_score : Rat
deriving DecidableEq

/-- Model of `get_topic_performance` (utils/db.py lines 183-213) after the database
fetch: group by topic, then attach `sum/len if scores else 0`,
`max(scores) if scores else 0` and `min(scores) if scores else 0`. -/
def get_topic_performance (records : List QuizRecord) : List (String × TopicStats) :=
  (groupByTopic records).map (fun e =>
    (e.1,
      { scores := e.2.1,
        total_quizzes := e.2.2,
        average_score := if e.2.1.isEmpty then 0 else e.2.1.sum / (e.2.1.length : Rat),
        best_score := if e.2.1.isEmpty then 0 else pyMax e.2.1,
        worst_score := if e.2.1.isEmpty then 0 else pyMin e.2.1 }))

/-- The GitHub part of the insights dictionary
(utils/integrations.py lines 842-847): commit total, number of active
repositories, the distinct language names (`languages_used` keys) and the
most recent commit messages. -/
structure GitHubInsights where
  total_commits : Nat
  active_repos : Nat
  languages : List String
  recent_activity : List String
deriving DecidableEq

/-- The Udemy part of the insights dictionary
(utils/integrations.py lines 855-860): completion rate, course count,
learning hours and the distinct category names (`categories` keys). -/
structure UdemyInsights where
  completion_rate : Rat
  total_courses : Nat
  learning_hours : Rat
  categories : List String
deriving DecidableEq

/-- A cross-platform recommendation entry {type, title, reason}
(utils/integrations.py lines 871-896).  The `type` key is `ty` because
`type` is reserved in Lean. -/
structure Recommendation where
  ty : String
  title : String
  reason : String
deriving DecidableEq, BEq

/-- The data-science course suggestion (utils/integrations.py lines
871-875). -/
def dataScienceRec : Recommendation :=
  { ty := "course_suggestion",
    title := "Complete a Data Science course",
    reason := "You are active in Python - perfect for Data Science!" }

/-- The DevOps skills suggestion (utils/integrations.py lines 878-882). -/
def devOpsRec : Recommendation :=
  { ty := "skill_development",
    title := "Learn DevOps and CI/CD",
    reason := "Your high coding activity suggests you\u0027d benefit from DevOps skills" }

/-- The connect-GitHub suggestion (utils/integrations.py lines 885-889). -/
def connectGitHubRec : Recommendation :=
  { ty := "platform_integration",
    title := "Connect your GitHub account",
    reason := "Track your coding progress alongside your courses" }

/-- The structured-courses suggestion (utils/integrations.py lines
892-896). -/
def structuredCoursesRec : Recommendation :=
  { ty := "learning_enhancement",
    title := "Add structured learning with online courses",
    reason := "Complement your coding with formal education" }

/-- The recommendation rules of `get_user_learning_insights`
(utils/integrations.py lines 863-896): branch-exclusive on which
platforms are connected; inside the both-connected branch the two rules
fire independently.  Python converts the language and category lists to
sets before the membership tests, which is observationally the same as
list membership. -/
def cross_platform_recommendations (gh : Option GitHubInsights)
    (ud : Option UdemyInsights) : List Recommendation :=
  match gh, ud with
  | some g, some u =>
    (if "Python" ∈ g.languages ∧ "Data Science" ∉ u.categories
     then [dataScienceRec] else []) ++
    (if 50 < g.total_commits ∧ "DevOps" ∉ u.categories
     then [devOpsRec] else [])
  | none, some _ => [connectGitHubRec]
  | some _, none => [structuredCoursesRec]
  | none, none => []

/-- Python `round`: round half to even (banker rounding), on exact
rational values. -/
def pyRound (q : Rat) : Int :=
  if q - (⌊q⌋ : Rat) < 1/2 then ⌊q⌋
  else if 1/2 < q - (⌊q⌋ : Rat) then ⌊q⌋ + 1
  else if ⌊q⌋ % 2 = 0 then ⌊q⌋ else ⌊q⌋ + 1

/-- The GitHub contribution to the overall learning score
(utils/integrations.py lines 902-904): `min(total_commits / 10, 30)` plus
5 points per distinct language; 0 when GitHub is not connected. -/
def github_points : Option GitHubInsights → Rat
  | none => 0
  | some g => min ((g.total_commits : Rat) / 10) 30 + (g.languages.length : Rat) * 5

/-- The Udemy contribution to the overall learning score
(utils/integrations.py lines 906-908): `completion_rate / 2` plus 3
points per distinct category; 0 when Udemy is not connected. -/
def udemy_points : Option UdemyInsights → Rat
  | none => 0
  | some u => u.completion_rate / 2 + (u.categories.length : Rat) * 3

/-- Model of the overall-score assignment `min(round(score), 100)`
(utils/integrations.py lines 901-910). -/
def overall_score (gh : Option GitHubInsights) (ud : Option UdemyInsights) : Int :=
  min (pyRound (github_points gh + udemy_points ud)) 100

/-- A stored study plan as the report builder reads it (`goal` plus a
creation date). -/
structure StudyPlan where
  goal : String
  created_at : Int
deriving DecidableEq

/-- The structured content of the generated report, i.e. the data placed
into the PDF `story` by `generate_analytics_pdf` (utils/db.py lines
379-544); fonts, tables-as-pixels and the byte encoding are the external
renderer concern. -/
structure ReportDoc where
  student_name : String
  student_email : Option String
  total_quizzes : Nat
  average_score : Rat
  pass_rate : Rat
  unique_topics : Nat
  best_topic : Option String
  worst_topic : Option String
  topic_table : List (String × TopicStats)
  plans_shown : List String
  recommendations : List String
deriving DecidableEq

/-- Model of `generate_analytics_pdf` (utils/db.py lines 368-556) after the data
fetches: refuse with the message when the analytics are unavailable or
the quiz history is empty (`if not analytics or not quiz_history`),
otherwise assemble the structured report.  The result mirrors the
Python pair `(pdf_data, error)`. -/
def generate_analytics_pdf (analytics : Option AnalyticsData)
    (quiz_history : List QuizRecord) (user_plans : List StudyPlan)
    (user_name : String) (user_email : Option String) :
    Option ReportDoc × Option String :=
  match analytics with
  | none => (none, some "No data available for PDF generation")
  | some a =>
    if quiz_history.isEmpty then
      (none, some "No data available for PDF generation")
    else
      let passed := quiz_history.countP (fun q => decide (60 ≤ q.percentage))
      let avg := (quiz_history.map (·.percentage)).sum / (quiz_history.length : Rat)
      (some
        { student_name := user_name,
          student_email := user_email,
          total_quizzes := a.total_quizzes,
          average_score := a.average_score,
          pass_rate := (passed : Rat) / (quiz_history.length : Rat) * 100,
          unique_topics := (dedupTopics quiz_history).length,
          best_topic := a.best_topic,
          worst_topic := a.worst_topic,
          topic_table := get_topic_performance quiz_history,
          plans_shown := (user_plans.take 3).map (·.goal),
          recommendations :=
            (if 80 ≤ avg then
              ["Excellent performance! You are ready for advanced topics."]
             else if 60 ≤ avg then
              ["Good progress! Focus on improving weak areas."]
             else
              ["Consider reviewing fundamentals before advancing."]) ++
            (match a.worst_topic with
             | some wt => ["Focus more practice on: " ++ wt]
             | none => []) ++
            (if 10 ≤ quiz_history.length then
              ["Great consistency! Keep up the regular practice."]
             else []) }, none)

/-- A resource entry attached to a generated plan (utils/ai.py lines
72-88). -/
structure PlanResource where
  ty : String
  title : String
  url : String
deriving DecidableEq

/-- The structured plan object handled by the generation adapter
(utils/ai.py lines 92-117 list its fields). -/
structure PlanData where
  title : String
  overview : String
  duration : String
  difficulty : String
  modules : List String
  milestones : List String
  resources : List PlanResource
  tips : List String
deriving DecidableEq

/-- Result shape of `get_remediation_resources` (utils/db.py lines 215-230): generic
search links built from the topic name with spaces replaced by `+`. -/
structure RemediationResources where
  video_url : String
  article_url : String
  practice_url : String
  description : String
deriving DecidableEq

/-- Model of the `get_remediation_resources` body (utils/db.py lines 219-227). -/
def get_remediation_resources (topic : String) : RemediationResources :=
  { video_url := "https://www.youtube.com/results?search_query="
      ++ topic.replace " " "+" ++ "+tutorial",
    article_url := "https://www.google.com/search?q="
      ++ topic.replace " " "+" ++ "+comprehensive+guide",
    practice_url := "https://www.google.com/search?q="
      ++ topic.replace " " "+" ++ "+practice+exercises",
    description := "Additional learning resources for " ++ topic }

/-- The three resource links appended to every generated plan
(utils/ai.py lines 72-88 and 99-115). -/
def remediationLinks (subject : String) : List PlanResource :=
  [ { ty := "video", title := "YouTube Tutorials for " ++ subject,
      url := (get_remediation_resources subject).video_url },
    { ty := "article", title := "Comprehensive Guides for " ++ subject,
      url := (get_remediation_resources subject).article_url },
    { ty := "practice", title := "Practice Exercises for " ++ subject,
      url := (get_remediation_resources subject).practice_url } ]

/-- Model of `generate_plan_with_groq` (utils/ai.py lines 64-117) after the LLM
call: `content` is the raw response text and `parsed` is the result of
`json.loads(content)` (the external JSON parser), `none` when the
response is not valid JSON.  On a parse failure the adapter still
returns success (`True`) with a text-wrapped plan whose overview is the
raw text and whose module and milestone lists are empty. -/
def generate_plan_with_groq (parsed : Option PlanData) (content : String)
    (subject learning_goal current_level time_commitment : String) :
    Bool × PlanData :=
  match parsed with
  | some plan_data =>
    (true, { plan_data with resources := plan_data.resources ++ remediationLinks subject })
  | none =>
    (true,
      { title := "Study Plan: " ++ subject,
        overview := content,
        duration := time_commitment,
        difficulty := current_level,
        modules := [],
        milestones := [],
        resources := remediationLinks subject,
        tips := [] })

end StudyBuddy

namespace StudyBuddy

/-- C1 counterexample: with quiz dates {today, today-2} (today = 0) the
walk does NOT stop at the gap: after counting day 0 the expected date is
-1, and the test `quiz_date == expected_date - 1` accepts -2, so the
streak is 2, not 1 as the claim states. -/
theorem streak_gap_counterexample :
    get_learning_streak 0 [0, -2] = 2 ∧ get_learning_streak 0 [0, -2] ≠ 1 := by
  decide

/-- C1 amended: dates {today, today-1, today-2} give streak 3, and dates
{today, today-2} give streak 2, because each step of the walk accepts a
date equal to the expected date or exactly one day earlier, so a
single-day gap never breaks the streak; only a gap of two or more days
between a date and the expected date stops the walk. -/
theorem streak_values (today : Int) :
    get_learning_streak today [today, today - 1, today - 2] = 3 ∧
    get_learning_streak today [today, today - 2] = 2 := by
  have h1 : ¬ (today - 1 = today) := by omega
  have h2 : ¬ (today - 2 = today) := by omega
  have h3 : ¬ (today - 2 = today - 1) := by omega
  have h4 : today - 2 ≤ today - 1 := by omega
  have h5 : today - 1 ≤ today := by omega
  have h6 : today - 2 ≤ today := by omega
  have h7 : today - 1 - 1 = today - 2 := by omega
  constructor <;>
    simp [get_learning_streak, dedupDates, sortDesc, insertDesc, streakWalk,
      h1, h2, h3, h4, h5, h6, h7]

/-- C4: `get_user_analytics` on an empty quiz history returns the zeroed
summary — `total_quizzes = 0` and `average_score = 0`.  The function is
total, so no exception can occur. -/
theorem analytics_empty_summary :
    (get_user_analytics []).total_quizzes = 0 ∧
    (get_user_analytics []).average_score = 0 := by
  decide

/-- C6: on records [("Python", 80), ("Python", 60), ("SQL", 50)] the
per-topic breakdown has average 70 for Python and average 50 for SQL, and
`worst_topic` is "SQL", the topic of minimum per-topic average. -/
theorem topic_grouping_example :
    get_topic_performance
        [⟨"Python", 8, 10, 80, 0⟩, ⟨"Python", 6, 10, 60, 0⟩,
         ⟨"SQL", 5, 10, 50, 0⟩] =
      [("Python", ⟨[80, 60], 2, 70, 80, 60⟩), ("SQL", ⟨[50], 1, 50, 50, 50⟩)] ∧
    (get_user_analytics
        [⟨"Python", 8, 10, 80, 0⟩, ⟨"Python", 6, 10, 60, 0⟩,
         ⟨"SQL", 5, 10, 50, 0⟩]).worst_topic = some "SQL" := by
  constructor
  · simp [get_topic_performance, groupByTopic, updateGroup, pyMax, pyMin]
    norm_num
  · simp [get_user_analytics, groupPercentages, addToGroup, pyMaxBy, pyMinBy,
      dedupTopics]
    norm_num [pyMinBy]

/-- Helper: the GitHub score contribution is never negative. -/
theorem github_points_nonneg (gh : Option GitHubInsights) : 0 ≤ github_points gh := by
  cases gh with
  | none => simp [github_points]
  | some g =>
    have h1 : (0 : Rat) ≤ min ((g.total_commits : Rat) / 10) 30 :=
      le_min (by positivity) (by norm_num)
    have h2 : (0 : Rat) ≤ (g.languages.length : Rat) * 5 := by positivity
    simpa [github_points] using add_nonneg h1 h2

/-- Helper: the Udemy score contribution is never negative when the
completion rate is. -/
theorem udemy_points_nonneg (ud : Option UdemyInsights)
    (h : ∀ u, ud = some u → 0 ≤ u.completion_rate) : 0 ≤ udemy_points ud := by
  cases ud with
  | none => simp [udemy_points]
  | some u =>
    have hr := h u rfl
    have h1 : (0 : Rat) ≤ u.completion_rate / 2 := by positivity
    have h2 : (0 : Rat) ≤ (u.categories.length : Rat) * 3 := by positivity
    simpa [udemy_points] using add_nonneg h1 h2

/-- Helper: Python rounding never turns a non-negative value negative. -/
theorem pyRound_nonneg {q : Rat} (h : 0 ≤ q) : 0 ≤ pyRound q := by
  have hf : (0 : Int) ≤ ⌊q⌋ := Int.floor_nonneg.mpr h
  unfold pyRound
  split_ifs <;> omega

/-- C2: GitHub with 100 commits and 3 distinct languages contributes
min(100/10, 30) + 3*5 = 25 points, Udemy with completion rate 80 and 2
distinct categories contributes 80/2 + 2*3 = 46 points, and the overall
score is min(round(71), 100) = 71. -/
theorem insights_score_example :
    github_points (some ⟨100, 3, ["Python", "JavaScript", "Go"], []⟩) = 25 ∧
    udemy_points (some ⟨80, 5, 10, ["Web Development", "Business"]⟩) = 46 ∧
    overall_score (some ⟨100, 3, ["Python", "JavaScript", "Go"], []⟩)
      (some ⟨80, 5, 10, ["Web Development", "Business"]⟩) = 71 := by
  refine ⟨by norm_num [github_points], by norm_num [udemy_points], ?_⟩
  norm_num [overall_score, github_points, udemy_points, pyRound, min_def]

/-- C3: when both platforms are connected, "Python" is among the GitHub
languages and "Data Science" is not among the Udemy categories, the
cross-platform recommendations contain the data-science course suggestion
exactly once. -/
theorem data_science_rec_once (g : GitHubInsights) (u : UdemyInsights)
    (hpy : "Python" ∈ g.languages) (hds : "Data Science" ∉ u.categories) :
    (cross_platform_recommendations (some g) (some u)).count dataScienceRec = 1 := by
  simp only [cross_platform_recommendations]
  rw [if_pos ⟨hpy, hds⟩, List.count_append]
  by_cases hc : 50 < g.total_commits ∧ "DevOps" ∉ u.categories
  · rw [if_pos hc]
    decide
  · rw [if_neg hc]
    decide

/-- C3 witness: a concrete GitHub snapshot with languages = ["Python"]
and a Udemy snapshot with no categories. -/
theorem data_science_rec_once_witness :
    (cross_platform_recommendations (some ⟨0, 0, ["Python"], []⟩)
      (some ⟨0, 0, 0, []⟩)).count dataScienceRec = 1 :=
  data_science_rec_once ⟨0, 0, ["Python"], []⟩ ⟨0, 0, 0, []⟩
    (by decide) (by decide)

/-- C8: for any optional GitHub and Udemy snapshots whose completion rate
(when present) lies in [0, 100], the overall score is an integer in
[0, 100]; an absent platform contributes 0 points.  Commit totals and
language/category counts are naturals, hence always non-negative. -/
theorem overall_score_bounds (gh : Option GitHubInsights) (ud : Option UdemyInsights)
    (hud : ∀ u, ud = some u → 0 ≤ u.completion_rate ∧ u.completion_rate ≤ 100) :
    (0 ≤ overall_score gh ud ∧ overall_score gh ud ≤ 100) ∧
    github_points none = 0 ∧ udemy_points none = 0 := by
  refine ⟨⟨?_, min_le_right _ _⟩, rfl, rfl⟩
  have hg := github_points_nonneg gh
  have hu := udemy_points_nonneg ud (fun u h => (hud u h).1)
  exact le_min (pyRound_nonneg (by linarith)) (by norm_num)

/-- C8 witness: both platforms absent gives score 0 ∈ [0, 100] and zero
contributions. -/
theorem overall_score_bounds_witness :
    (0 ≤ overall_score none none ∧ overall_score none none ≤ 100) ∧
    github_points none = 0 ∧ udemy_points none = 0 :=
  overall_score_bounds none none (fun u h => by simp at h)

/-- C5: with an empty quiz history the report builder returns no document
and the explanatory failure message, whatever the analytics value and
however many study plans exist. -/
theorem pdf_refused_on_empty_history (analytics : Option AnalyticsData)
    (user_plans : List StudyPlan) (user_name : String) (user_email : Option String) :
    generate_analytics_pdf analytics [] user_plans user_name user_email =
      (none, some "No data available for PDF generation") := by
  cases analytics <;> simp [generate_analytics_pdf]

/-- C7: when the response of the generative service is not valid JSON
(`parsed = none`), the adapter returns success together with a
text-wrapped plan whose overview is the raw response text and whose
module and milestone lists are empty. -/
theorem plan_fallback_on_malformed_output (content subject learning_goal
    current_level time_commitment : String) :
    (generate_plan_with_groq none content subject learning_goal current_level
        time_commitment).1 = true ∧
    (generate_plan_with_groq none content subject learning_goal current_level
        time_commitment).2.overview = content ∧
    (generate_plan_with_groq none content subject learning_goal current_level
        time_commitment).2.modules = [] ∧
    (generate_plan_with_groq none content subject learning_goal current_level
        time_commitment).2.milestones = [] :=
  ⟨rfl, rfl, rfl, rfl⟩

/-- Helper: a percentage computed as `score / total * 100` with
`0 < total` and `score ≤ total` lies in [0, 100]. -/
theorem pct_in_range {s t : Nat} (ht : 0 < t) (hst : s ≤ t) :
    0 ≤ (s : Rat) / (t : Rat) * 100 ∧ (s : Rat) / (t : Rat) * 100 ≤ 100 := by
  have ht' : (0 : Rat) < t := by exact_mod_cast ht
  constructor
  · positivity
  · have h1 : (s : Rat) / t ≤ 1 := by
      rw [div_le_one ht']
      exact_mod_cast hst
    have := mul_le_mul_of_nonneg_right h1 (by norm_num : (0 : Rat) ≤ 100)
    simpa using this

/-- C9: for every non-empty record list whose percentages were produced
by the `save_quiz_score` formula (score / total_questions * 100 with
0 < total_questions and score ≤ total_questions), the reported average
score lies in [0, 100]. -/
theorem average_score_in_range (records : List QuizRecord)
    (hne : records ≠ [])
    (hp : ∀ r ∈ records, ∃ s t : Nat, 0 < t ∧ s ≤ t ∧
        r.percentage = (s : Rat) / (t : Rat) * 100) :
    0 ≤ (get_user_analytics records).average_score ∧
    (get_user_analytics records).average_score ≤ 100 := by
  have hbounds : ∀ x ∈ records.map (·.percentage), 0 ≤ x ∧ x ≤ 100 := by
    intro x hx
    simp only [List.mem_map] at hx
    obtain ⟨r, hr, rfl⟩ := hx
    obtain ⟨s, t, ht, hst, hpct⟩ := hp r hr
    rw [hpct]
    exact pct_in_range ht hst
  have hrec : ¬ records.isEmpty := by simpa using hne
  have havg : (get_user_analytics records).average_score =
      (records.map (·.percentage)).sum / (records.length : Rat) := by
    simp [get_user_analytics, hrec]
  have hlen : (0 : Rat) < (records.length : Rat) := by
    have := List.length_pos.mpr hne
    exact_mod_cast this
  have hsum0 : 0 ≤ (records.map (·.percentage)).sum :=
    List.sum_nonneg (fun x hx => (hbounds x hx).1)
  have hsum100 : (records.map (·.percentage)).sum ≤ (records.length : Rat) * 100 := by
    have h := List.sum_le_card_nsmul (records.map (·.percentage)) 100
      (fun x hx => (hbounds x hx).2)
    simpa [nsmul_eq_mul] using h
  rw [havg]
  refine ⟨div_nonneg hsum0 hlen.le, ?_⟩
  rw [div_le_iff hlen]
  linarith

/-- C9 witness: one record with percentage 50 = 1/2 * 100. -/
theorem average_score_in_range_witness :
    0 ≤ (get_user_analytics [⟨"T", 1, 2, 50, 0⟩]).average_score ∧
    (get_user_analytics [⟨"T", 1, 2, 50, 0⟩]).average_score ≤ 100 :=
  average_score_in_range [⟨"T", 1, 2, 50, 0⟩] (by simp)
    (by
      intro r hr
      simp only [List.mem_singleton] at hr
      subst hr
      exact ⟨1, 2, by norm_num, by norm_num, by norm_num⟩)

/-- Helper: the topic-grouping update keeps the score list of every entry
non-empty and its quiz counter at least 1. -/
theorem updateGroup_entries (t : String) (p : Rat) :
    ∀ acc : List (String × (List Rat × Nat)),
      (∀ e ∈ acc, e.2.1 ≠ [] ∧ 1 ≤ e.2.2) →
      ∀ e ∈ updateGroup t p acc, e.2.1 ≠ [] ∧ 1 ≤ e.2.2 := by
  intro acc
  induction acc with
  | nil =>
    intro _ e he
    simp only [updateGroup, List.mem_singleton] at he
    subst he
    exact ⟨by simp, le_refl 1⟩
  | cons hd rest ih =>
    intro h e he
    obtain ⟨k, pr⟩ := hd
    simp only [updateGroup] at he
    by_cases hk : k = t
    · rw [if_pos hk] at he
      rcases List.mem_cons.mp he with rfl | htl
      · exact ⟨by simp, Nat.le_add_left 1 pr.2⟩
      · exact h _ (List.mem_cons_of_mem _ htl)
    · rw [if_neg hk] at he
      rcases List.mem_cons.mp he with rfl | htl
      · exact h _ (List.mem_cons_self _ _)
      · exact ih (fun e' he' => h e' (List.mem_cons_of_mem _ he')) e htl

/-- Helper: every entry of the per-topic grouping has a non-empty score
list and a counter at least 1. -/
theorem groupByTopic_entries (records : List QuizRecord) :
    ∀ e ∈ groupByTopic records, e.2.1 ≠ [] ∧ 1 ≤ e.2.2 := by
  have main : ∀ (rs : List QuizRecord) (acc : List (String × (List Rat × Nat))),
      (∀ e ∈ acc, e.2.1 ≠ [] ∧ 1 ≤ e.2.2) →
      ∀ e ∈ rs.foldl (fun a r => updateGroup r.topic r.percentage a) acc,
        e.2.1 ≠ [] ∧ 1 ≤ e.2.2 := by
    intro rs
    induction rs with
    | nil => intro acc h e he; exact h e he
    | cons r rest ih =>
      intro acc h e he
      simp only [List.foldl_cons] at he
      exact ih _ (updateGroup_entries r.topic r.percentage acc h) e he
  intro e he
  exact main records [] (by simp) e he

/-- Helper: the fold of `max` bounds its start value and every list
element from above. -/
theorem foldl_max_bounds (xs : List Rat) :
    ∀ a : Rat, a ≤ xs.foldl max a ∧ ∀ x ∈ xs, x ≤ xs.foldl max a := by
  induction xs with
  | nil => intro a; exact ⟨le_refl a, by simp⟩
  | cons b bs ih =>
    intro a
    have h := ih (max a b)
    refine ⟨le_trans (le_max_left a b) h.1, ?_⟩
    intro x hx
    rcases List.mem_cons.mp hx with rfl | hx'
    · exact le_trans (le_max_right a x) h.1
    · exact h.2 x hx'

/-- Helper: the fold of `min` bounds its start value and every list
element from below. -/
theorem foldl_min_bounds (xs : List Rat) :
    ∀ a : Rat, xs.foldl min a ≤ a ∧ ∀ x ∈ xs, xs.foldl min a ≤ x := by
  induction xs with
  | nil => intro a; exact ⟨le_refl a, by simp⟩
  | cons b bs ih =>
    intro a
    have h := ih (min a b)
    refine ⟨le_trans h.1 (min_le_left a b), ?_⟩
    intro x hx
    rcases List.mem_cons.mp hx with rfl | hx'
    · exact le_trans h.1 (min_le_right a x)
    · exact h.2 x hx'

/-- Helper: every member of a non-empty list is at most its Python
maximum. -/
theorem mem_le_pyMax {x : Rat} {l : List Rat} (hx : x ∈ l) (hne : l ≠ []) :
    x ≤ pyMax l := by
  cases l with
  | nil => exact absurd rfl hne
  | cons y ys =>
    rcases List.mem_cons.mp hx with rfl | hx'
    · exact (foldl_max_bounds ys x).1
    · exact (foldl_max_bounds ys y).2 x hx'

/-- Helper: the Python minimum of a non-empty list is at most every
member. -/
theorem pyMin_le_mem {x : Rat} {l : List Rat} (hx : x ∈ l) (hne : l ≠ []) :
    pyMin l ≤ x := by
  cases l with
  | nil => exact absurd rfl hne
  | cons y ys =>
    rcases List.mem_cons.mp hx with rfl | hx'
    · exact (foldl_min_bounds ys x).1
    · exact (foldl_min_bounds ys y).2 x hx'

/-- C10: every entry of the mapping returned by `get_topic_performance`
satisfies worst_score ≤ average_score ≤ best_score and has
total_quizzes ≥ 1: the per-topic average lies between the
minimum and maximum percentage. -/
theorem topic_stats_invariant (records : List QuizRecord) (t : String)
    (s : TopicStats) (h : (t, s) ∈ get_topic_performance records) :
    s.worst_score ≤ s.average_score ∧ s.average_score ≤ s.best_score ∧
    1 ≤ s.total_quizzes := by
  simp only [get_topic_performance, List.mem_map] at h
  obtain ⟨e, he, heq⟩ := h
  obtain ⟨hne, hcnt⟩ := groupByTopic_entries records e he
  rw [Prod.ext_iff] at heq
  obtain ⟨-, hs⟩ := heq
  subst hs
  obtain ⟨x, xs, hxx⟩ := List.exists_cons_of_ne_nil hne
  have hemp : e.2.1.isEmpty = false := by rw [hxx]; rfl
  have hlen : (0 : Rat) < (e.2.1.length : Rat) := by
    rw [hxx]
    exact_mod_cast Nat.succ_pos xs.length
  have hminle : ∀ y ∈ e.2.1, pyMin e.2.1 ≤ y := fun y hy => pyMin_le_mem hy hne
  have hmaxge : ∀ y ∈ e.2.1, y ≤ pyMax e.2.1 := fun y hy => mem_le_pyMax hy hne
  have hlower : (e.2.1.length : Rat) * pyMin e.2.1 ≤ e.2.1.sum := by
    have h := List.card_nsmul_le_sum e.2.1 (pyMin e.2.1) hminle
    simpa [nsmul_eq_mul] using h
  have hupper : e.2.1.sum ≤ (e.2.1.length : Rat) * pyMax e.2.1 := by
    have h := List.sum_le_card_nsmul e.2.1 (pyMax e.2.1) hmaxge
    simpa [nsmul_eq_mul] using h
  refine ⟨?_, ?_, hcnt⟩
  · show (if e.2.1.isEmpty then 0 else pyMin e.2.1) ≤
      (if e.2.1.isEmpty then (0 : Rat) else e.2.1.sum / (e.2.1.length : Rat))
    rw [hemp]
    simp only [Bool.false_eq_true, if_false]
    rw [le_div_iff hlen]
    linarith
  · show (if e.2.1.isEmpty then (0 : Rat) else e.2.1.sum / (e.2.1.length : Rat)) ≤
      (if e.2.1.isEmpty then 0 else pyMax e.2.1)
    rw [hemp]
    simp only [Bool.false_eq_true, if_false]
    rw [div_le_iff hlen]
    linarith

/-- C10 witness: a single record gives the topic stats
{scores := [80], total_quizzes := 1, average 80, best 80, worst 80}. -/
theorem topic_stats_invariant_witness :
    (⟨[80], 1, 80, 80, 80⟩ : TopicStats).worst_score ≤
      (⟨[80], 1, 80, 80, 80⟩ : TopicStats).average_score ∧
    (⟨[80], 1, 80, 80, 80⟩ : TopicStats).average_score ≤
      (⟨[80], 1, 80, 80, 80⟩ : TopicStats).best_score ∧
    1 ≤ (⟨[80], 1, 80, 80, 80⟩ : TopicStats).total_quizzes :=
  topic_stats_invariant [⟨"Python", 8, 10, 80, 0⟩] "Python" ⟨[80], 1, 80, 80, 80⟩
    (by norm_num [get_topic_performance, groupByTopic, updateGroup, pyMax, pyMin])

end StudyBuddy
